import Mathlib

/-!
Verification development for the nearby-places tool (nearby.py).

The program resolves an address to a coordinate through a geocoding
response, collects nearby place candidates per search term, accumulates
them into a deduplicated GeoJSON feature collection, and writes the
collection to a file.

The JSON data model is a tree of mappings, sequences and scalars; numbers
are modelled as integers (no claim depends on numeric arithmetic, only on
structural equality). Python exceptions are modelled by an error type
threaded through `Except`.
-/

inductive Json where
  | null : Json
  | bool (b : Bool) : Json
  | num (n : Int) : Json
  | str (s : String) : Json
  | arr (xs : List Json) : Json
  | obj (kvs : List (String × Json)) : Json

mutual

/-- Structural (Python `==`) equality test on JSON values. -/
def jbeq : Json → Json → Bool
  | Json.null, Json.null => true
  | Json.bool a, Json.bool b => a == b
  | Json.num a, Json.num b => a == b
  | Json.str a, Json.str b => a == b
  | Json.arr xs, Json.arr ys => jbeqList xs ys
  | Json.obj xs, Json.obj ys => jbeqObj xs ys
  | _, _ => false

def jbeqList : List Json → List Json → Bool
  | [], [] => true
  | x :: xs, y :: ys => jbeq x y && jbeqList xs ys
  | _, _ => false

def jbeqObj : List (String × Json) → List (String × Json) → Bool
  | [], [] => true
  | (k1, v1) :: xs, (k2, v2) :: ys => k1 == k2 && jbeq v1 v2 && jbeqObj xs ys
  | _, _ => false

end

mutual

theorem jbeq_iff : ∀ a b, jbeq a b = true ↔ a = b
  | Json.null, Json.null => by simp [jbeq]
  | Json.bool a, Json.bool b => by simp [jbeq]
  | Json.num a, Json.num b => by simp [jbeq]
  | Json.str a, Json.str b => by simp [jbeq]
  | Json.arr xs, Json.arr ys => by
      simp only [jbeq, jbeqList_iff xs ys]
      constructor
      · intro h; rw [h]
      · intro h; cases h; rfl
  | Json.obj xs, Json.obj ys => by
      simp only [jbeq, jbeqObj_iff xs ys]
      constructor
      · intro h; rw [h]
      · intro h; cases h; rfl
  | Json.null, Json.bool _ => by simp [jbeq]
  | Json.null, Json.num _ => by simp [jbeq]
  | Json.null, Json.str _ => by simp [jbeq]
  | Json.null, Json.arr _ => by simp [jbeq]
  | Json.null, Json.obj _ => by simp [jbeq]
  | Json.bool _, Json.null => by simp [jbeq]
  | Json.bool _, Json.num _ => by simp [jbeq]
  | Json.bool _, Json.str _ => by simp [jbeq]
  | Json.bool _, Json.arr _ => by simp [jbeq]
  | Json.bool _, Json.obj _ => by simp [jbeq]
  | Json.num _, Json.null => by simp [jbeq]
  | Json.num _, Json.bool _ => by simp [jbeq]
  | Json.num _, Json.str _ => by simp [jbeq]
  | Json.num _, Json.arr _ => by simp [jbeq]
  | Json.num _, Json.obj _ => by simp [jbeq]
  | Json.str _, Json.null => by simp [jbeq]
  | Json.str _, Json.bool _ => by simp [jbeq]
  | Json.str _, Json.num _ => by simp [jbeq]
  | Json.str _, Json.arr _ => by simp [jbeq]
  | Json.str _, Json.obj _ => by simp [jbeq]
  | Json.arr _, Json.null => by simp [jbeq]
  | Json.arr _, Json.bool _ => by simp [jbeq]
  | Json.arr _, Json.num _ => by simp [jbeq]
  | Json.arr _, Json.str _ => by simp [jbeq]
  | Json.arr _, Json.obj _ => by simp [jbeq]
  | Json.obj _, Json.null => by simp [jbeq]
  | Json.obj _, Json.bool _ => by simp [jbeq]
  | Json.obj _, Json.num _ => by simp [jbeq]
  | Json.obj _, Json.str _ => by simp [jbeq]
  | Json.obj _, Json.arr _ => by simp [jbeq]

theorem jbeqList_iff : ∀ xs ys, jbeqList xs ys = true ↔ xs = ys
  | [], [] => by simp [jbeqList]
  | [], _ :: _ => by simp [jbeqList]
  | _ :: _, [] => by simp [jbeqList]
  | x :: xs, y :: ys => by
      simp only [jbeqList, Bool.and_eq_true, jbeq_iff x y, jbeqList_iff xs ys]
      simp

theorem jbeqObj_iff : ∀ xs ys, jbeqObj xs ys = true ↔ xs = ys
  | [], [] => by simp [jbeqObj]
  | [], _ :: _ => by simp [jbeqObj]
  | _ :: _, [] => by simp [jbeqObj]
  | (k1, v1) :: xs, (k2, v2) :: ys => by
      simp only [jbeqObj, Bool.and_eq_true, jbeq_iff v1 v2, jbeqObj_iff xs ys]
      simp [beq_iff_eq]

end

instance : DecidableEq Json := fun a b => decidable_of_iff (jbeq a b = true) (jbeq_iff a b)

/-- Python truthiness of a JSON value (`if not x`). -/
def truthy : Json → Bool
  | Json.null => false
  | Json.bool b => b
  | Json.num n => n != 0
  | Json.str s => s != ""
  | Json.arr xs => !xs.isEmpty
  | Json.obj kvs => !kvs.isEmpty

/-- `isinstance(v, (dict, list))`. -/
def isContainer : Json → Bool
  | Json.obj _ => true
  | Json.arr _ => true
  | _ => false

mutual

/-- Embedding of `extract_data(obj, key, exclude=[])` (nearby.py lines 19 to 40).
The generator is embedded as the list of all values it yields, in yield
order: on a mapping, each entry is matched against `key` first (yield the
value and continue with the next sibling), then against the exclusion list
(skip the entry), and otherwise recursed into when it is a container; on a
sequence, every element is recursed into in order. -/
def extract_data : Json → String → List String → List Json
  | Json.obj kvs, key, exclude => extractObj kvs key exclude
  | Json.arr xs, key, exclude => extractArr xs key exclude
  | _, _, _ => []

def extractObj : List (String × Json) → String → List String → List Json
  | [], _, _ => []
  | (k, v) :: rest, key, exclude =>
    (if k = key then [v]
     else if k ∈ exclude then []
     else if isContainer v then extract_data v key exclude else [])
    ++ extractObj rest key exclude

def extractArr : List Json → String → List String → List Json
  | [], _, _ => []
  | x :: rest, key, exclude =>
    extract_data x key exclude ++ extractArr rest key exclude

end

/-- Python exceptions relevant to this program. `valueError` carries the
message of the raised `ValueError`. -/
inductive PyErr where
  | indexError : PyErr
  | typeError : PyErr
  | attributeError : PyErr
  | valueError (msg : String) : PyErr
deriving DecidableEq

instance {ε α : Type} [DecidableEq ε] [DecidableEq α] : DecidableEq (Except ε α)
  | Except.error e1, Except.error e2 =>
    if h : e1 = e2 then isTrue (congrArg Except.error h)
    else isFalse (fun hc => h (Except.error.inj hc))
  | Except.error _, Except.ok _ => isFalse (fun hc => Except.noConfusion hc)
  | Except.ok _, Except.error _ => isFalse (fun hc => Except.noConfusion hc)
  | Except.ok a, Except.ok b =>
    if h : a = b then isTrue (congrArg Except.ok h)
    else isFalse (fun hc => h (Except.ok.inj hc))

/-- Embedding of `RequesAPI.retrive_coordinate` (lines 108 to 123) applied
to an already received geocoding response:
`coordinate = list(extract_data(response, "DisplayPosition"))[0]` raises
`IndexError` when the list is empty; then `if not coordinate` raises
`ValueError("No coordinate found")` when the first element is falsy. -/
def retrive_coordinate (response : Json) : Except PyErr Json :=
  match extract_data response "DisplayPosition" [] with
  | [] => Except.error PyErr.indexError
  | coordinate :: _ =>
    if truthy coordinate then Except.ok coordinate
    else Except.error (PyErr.valueError "No coordinate found")

/-- `p.get(k)` on a dict: the value when the key is present, `None` otherwise. -/
def pyDictGet (kvs : List (String × Json)) (k : String) : Json :=
  match kvs.lookup k with
  | some v => v
  | none => Json.null

/-- Python 2-target unpacking `a, b = x`: sequences of length 2 unpack to
their elements, strings of length 2 to their characters, mappings of size 2
to their keys; other lengths raise `ValueError`; non-iterables (`None`,
numbers, booleans) raise `TypeError`. -/
def unpack2 : Json → Except PyErr (Json × Json)
  | Json.arr [a, b] => Except.ok (a, b)
  | Json.arr xs =>
    if xs.length < 2 then Except.error (PyErr.valueError "not enough values to unpack (expected 2)")
    else Except.error (PyErr.valueError "too many values to unpack (expected 2)")
  | Json.str s =>
    match s.toList with
    | [a, b] => Except.ok (Json.str (String.mk [a]), Json.str (String.mk [b]))
    | cs =>
      if cs.length < 2 then Except.error (PyErr.valueError "not enough values to unpack (expected 2)")
      else Except.error (PyErr.valueError "too many values to unpack (expected 2)")
  | Json.obj [(k1, _), (k2, _)] => Except.ok (Json.str k1, Json.str k2)
  | Json.obj kvs =>
    if kvs.length < 2 then Except.error (PyErr.valueError "not enough values to unpack (expected 2)")
    else Except.error (PyErr.valueError "too many values to unpack (expected 2)")
  | _ => Except.error PyErr.typeError

/-- The feature record built by `add_features` (lines 156 to 166). -/
def mkFeature (longtitude latitude vicinity title : Json) : Json :=
  Json.obj [("type", Json.str "Feature"),
            ("geometry", Json.obj [("type", Json.str "Point"),
                                   ("coordinates", Json.arr [longtitude, latitude])]),
            ("properties", Json.obj [("address", vicinity), ("name", title)])]

/-- State of a `GeoJsonFeatureCollection` (lines 145 to 172): the
`features` list of `self._collection` (the `type` entry is the constant
string FeatureCollection and never changes) and the `count_feature`
counter. -/
structure GeoJsonFeatureCollection where
  features : List Json
  count_feature : Nat
deriving DecidableEq

/-- A freshly constructed collection. -/
def initColl : GeoJsonFeatureCollection := { features := [], count_feature := 0 }

/-- Embedding of `GeoJsonFeatureCollection.add_features` (lines 155 to 172):
build the feature record; if it is not already in the stored list, increment
the counter, append it and return `True`; otherwise return `False`. -/
def add_features (s : GeoJsonFeatureCollection) (longtitude latitude vicinity title : Json) :
    Bool × GeoJsonFeatureCollection :=
  let features := mkFeature longtitude latitude vicinity title
  if features ∉ s.features then
    (true, { features := s.features ++ [features], count_feature := s.count_feature + 1 })
  else
    (false, s)

/-- Repeated `add_features` calls from a given state, one per four-tuple. -/
def runAdds : GeoJsonFeatureCollection → List (Json × Json × Json × Json) →
    GeoJsonFeatureCollection
  | s, [] => s
  | s, (lon, lat, vic, tit) :: rest => runAdds (add_features s lon lat vic tit).2 rest

/-- The default value of the `filename` argument of
`GeoJsonFeatureCollection.dump` (line 179). -/
def dump_default_filename : String := "geofile"

/-- The name of the file `dump` writes for a given `filename` argument
(line 187). -/
def dump_output_name (filename : String) : String := filename ++ ".geojson"

/-- One iteration of the inner loop of `Nearby.run` (lines 211 to 225) on
place candidate `p`, without the size check: `p.get("position")` (an
`AttributeError` when `p` is not a mapping is not caught); the unpacking
`latitude, longitude = ...` with only `TypeError` caught and replaced by
the placeholder `0, 0`; then the `add_features` call, whose boolean result
drives `cmp_size`. -/
def candidateStep (geojson : GeoJsonFeatureCollection) (p : Json) :
    Except PyErr (Bool × GeoJsonFeatureCollection) :=
  match p with
  | Json.obj kvs =>
    match unpack2 (pyDictGet kvs "position") with
    | Except.ok (latitude, longitude) =>
        Except.ok (add_features geojson longitude latitude
                     (pyDictGet kvs "vicinity") (pyDictGet kvs "title"))
    | Except.error PyErr.typeError =>
        Except.ok (add_features geojson (Json.num 0) (Json.num 0)
                     (pyDictGet kvs "vicinity") (pyDictGet kvs "title"))
    | Except.error e => Except.error e
  | _ => Except.error PyErr.attributeError

/-- The inner loop of `Nearby.run` for one search term: `cmp_size` starts
at 0; before each candidate the loop breaks when `cmp_size > size`; each
accepted (`True`) addition increments `cmp_size`. -/
def runTermGo (size : Nat) : GeoJsonFeatureCollection → Nat → List Json →
    Except PyErr GeoJsonFeatureCollection
  | geojson, _, [] => Except.ok geojson
  | geojson, cmp_size, p :: rest =>
    if size < cmp_size then Except.ok geojson
    else
      match candidateStep geojson p with
      | Except.error e => Except.error e
      | Except.ok (added, geojson2) =>
          runTermGo size geojson2 (if added then cmp_size + 1 else cmp_size) rest

/-- The outer loop of `Nearby.run`: one inner loop per search term, where
`termsItems` holds the `results.items` list returned for each term. -/
def runAll (size : Nat) : GeoJsonFeatureCollection → List (List Json) →
    Except PyErr GeoJsonFeatureCollection
  | geojson, [] => Except.ok geojson
  | geojson, items :: rest =>
    match runTermGo size geojson 0 items with
    | Except.error e => Except.error e
    | Except.ok geojson2 => runAll size geojson2 rest

/-- The pipeline: `Nearby.__init__` resolves the coordinate from the
geocoding response (any failure there happens before any places query),
then `run(size)` accumulates candidates for every term and dumps the
collection under the explicit name `pymi` (line 227). The result pairs the
final collection with the written file name. -/
def nearbyRun (geocodeResponse : Json) (termsItems : List (List Json)) (size : Nat) :
    Except PyErr (GeoJsonFeatureCollection × String) :=
  match retrive_coordinate geocodeResponse with
  | Except.error e => Except.error e
  | Except.ok _ =>
    match runAll size initColl termsItems with
    | Except.error e => Except.error e
    | Except.ok geojson => Except.ok (geojson, dump_output_name "pymi")

/-! ## Helper lemmas about the feature collection -/

theorem add_count_step (s : GeoJsonFeatureCollection) (lon lat vic tit : Json) :
    ((add_features s lon lat vic tit).2).count_feature
        = s.count_feature + (if (add_features s lon lat vic tit).1 then 1 else 0) ∧
    ((add_features s lon lat vic tit).2).features.length
        = s.features.length + (if (add_features s lon lat vic tit).1 then 1 else 0) ∧
    ((add_features s lon lat vic tit).1 = false → (add_features s lon lat vic tit).2 = s) := by
  by_cases h : mkFeature lon lat vic tit ∈ s.features <;> simp [add_features, h]

theorem add_features_nodup (s : GeoJsonFeatureCollection) (lon lat vic tit : Json)
    (h : s.features.Nodup) : ((add_features s lon lat vic tit).2).features.Nodup := by
  by_cases hm : mkFeature lon lat vic tit ∈ s.features
  · simpa [add_features, hm]
  · simp [add_features, hm, List.nodup_append, h]

theorem runAdds_nodup : ∀ (ops : List (Json × Json × Json × Json))
    (s : GeoJsonFeatureCollection), s.features.Nodup → (runAdds s ops).features.Nodup
  | [], _, h => h
  | (lon, lat, vic, tit) :: rest, s, h => by
      simp only [runAdds]
      exact runAdds_nodup rest _ (add_features_nodup s lon lat vic tit h)

theorem runAdds_count_eq_length : ∀ (ops : List (Json × Json × Json × Json))
    (s : GeoJsonFeatureCollection), s.count_feature = s.features.length →
    (runAdds s ops).count_feature = (runAdds s ops).features.length
  | [], _, h => h
  | (lon, lat, vic, tit) :: rest, s, h => by
      simp only [runAdds]
      apply runAdds_count_eq_length rest
      have h1 := add_count_step s lon lat vic tit
      rw [h1.1, h1.2.1, h]

/-! ## Claims about the feature collection (C5, C6, C10) -/

/-- Claim C5: `add_features` returns false and leaves the collection and
counter unchanged when a structurally identical feature is already stored;
otherwise it appends the new feature at the end, increments the counter by
one and returns true; hence adding the same four-tuple twice from a state
not containing it increases the stored feature count by exactly one and
returns true then false. -/
theorem add_features_dedup_spec (s : GeoJsonFeatureCollection) (lon lat vic tit : Json) :
    (mkFeature lon lat vic tit ∈ s.features → add_features s lon lat vic tit = (false, s)) ∧
    (mkFeature lon lat vic tit ∉ s.features →
      add_features s lon lat vic tit =
        (true, { features := s.features ++ [mkFeature lon lat vic tit],
                 count_feature := s.count_feature + 1 })) ∧
    (mkFeature lon lat vic tit ∉ s.features →
      (add_features s lon lat vic tit).1 = true ∧
      (add_features (add_features s lon lat vic tit).2 lon lat vic tit).1 = false ∧
      ((add_features (add_features s lon lat vic tit).2 lon lat vic tit).2).features.length
        = s.features.length + 1) := by
  refine ⟨?_, ?_, ?_⟩
  · intro h; simp [add_features, h]
  · intro h; simp [add_features, h]
  · intro h
    have h1 : add_features s lon lat vic tit =
        (true, { features := s.features ++ [mkFeature lon lat vic tit],
                 count_feature := s.count_feature + 1 }) := by simp [add_features, h]
    rw [h1]
    have hmem : mkFeature lon lat vic tit ∈ s.features ++ [mkFeature lon lat vic tit] := by simp
    refine ⟨rfl, ?_, ?_⟩ <;> simp [add_features, hmem]

/-- Witness for C5 at a concrete four-tuple and the fresh collection. -/
theorem add_features_dedup_spec_witness :
    (add_features initColl (Json.num 1) (Json.num 2) (Json.str "X") (Json.str "A")).1 = true ∧
    (add_features (add_features initColl (Json.num 1) (Json.num 2) (Json.str "X")
        (Json.str "A")).2 (Json.num 1) (Json.num 2) (Json.str "X") (Json.str "A")).1 = false ∧
    ((add_features (add_features initColl (Json.num 1) (Json.num 2) (Json.str "X")
        (Json.str "A")).2 (Json.num 1) (Json.num 2) (Json.str "X")
        (Json.str "A")).2).features.length = 1 := by
  have h := (add_features_dedup_spec initColl (Json.num 1) (Json.num 2) (Json.str "X")
    (Json.str "A")).2.2 (by decide)
  simpa using h

/-- Claim C6: starting from a freshly constructed collection, after any
sequence of add-feature operations the stored `features` list never
contains two structurally identical elements. -/
theorem runAdds_features_nodup (ops : List (Json × Json × Json × Json)) :
    (runAdds initColl ops).features.Nodup :=
  runAdds_nodup ops initColl List.nodup_nil

/-- Claim C10: the accepted-feature counter always equals the length of the
stored features list on every reachable state; a fresh collection has both
equal to zero, and each add-feature call either increments both by one
(returning true) or changes neither (returning false). -/
theorem count_feature_matches_length :
    initColl.count_feature = 0 ∧ initColl.features.length = 0 ∧
    (∀ ops, (runAdds initColl ops).count_feature = (runAdds initColl ops).features.length) ∧
    (∀ s lon lat vic tit,
      ((add_features s lon lat vic tit).1 = true →
        ((add_features s lon lat vic tit).2).count_feature = s.count_feature + 1 ∧
        ((add_features s lon lat vic tit).2).features.length = s.features.length + 1) ∧
      ((add_features s lon lat vic tit).1 = false →
        (add_features s lon lat vic tit).2 = s)) := by
  refine ⟨rfl, rfl, ?_, ?_⟩
  · intro ops; exact runAdds_count_eq_length ops initColl rfl
  · intro s lon lat vic tit
    have h := add_count_step s lon lat vic tit
    constructor
    · intro ht
      rw [ht] at h
      exact ⟨by simpa using h.1, by simpa using h.2.1⟩
    · intro hf
      exact h.2.2 hf

/-- Witness for C10 at a concrete operation list and add call. -/
theorem count_feature_matches_length_witness :
    (runAdds initColl [(Json.num 1, Json.num 2, Json.null, Json.null)]).count_feature
      = (runAdds initColl [(Json.num 1, Json.num 2, Json.null, Json.null)]).features.length ∧
    ((add_features initColl (Json.num 1) (Json.num 2) Json.null Json.null).2).count_feature
      = initColl.count_feature + 1 :=
  ⟨count_feature_matches_length.2.2.1 [(Json.num 1, Json.num 2, Json.null, Json.null)],
   ((count_feature_matches_length.2.2.2 initColl (Json.num 1) (Json.num 2) Json.null
      Json.null).1 (by decide)).1⟩

/-! ## Claims about coordinate resolution (C1) -/

/-- Counterexample for claim C1 as stated: on a geocoding response in which
the extractor finds no DisplayPosition value, resolution fails with an
IndexError (from indexing the empty extraction list), not with the
ValueError carrying the message "No coordinate found". -/
theorem retrive_coordinate_index_error_not_value_error :
    extract_data (Json.obj [("Response", Json.str "ok")]) "DisplayPosition" [] = [] ∧
    retrive_coordinate (Json.obj [("Response", Json.str "ok")])
      = Except.error PyErr.indexError ∧
    (Except.error PyErr.indexError : Except PyErr Json)
      ≠ Except.error (PyErr.valueError "No coordinate found") := by
  decide

/-- Claim C1 as amended: when the extractor finds no DisplayPosition value
the whole run fails, before any places are queried, with an IndexError;
the "No coordinate found" value-validation condition arises only when a
first DisplayPosition value is found but is falsy, and then it likewise
stops the run before any places are queried. -/
theorem retrive_coordinate_empty_extraction_fails
    (response : Json) (termsItems : List (List Json)) (size : Nat) :
    (extract_data response "DisplayPosition" [] = [] →
      nearbyRun response termsItems size = Except.error PyErr.indexError) ∧
    (∀ c rest, extract_data response "DisplayPosition" [] = c :: rest → truthy c = false →
      nearbyRun response termsItems size =
        Except.error (PyErr.valueError "No coordinate found")) := by
  constructor
  · intro h
    simp [nearbyRun, retrive_coordinate, h]
  · intro c rest hc htr
    simp [nearbyRun, retrive_coordinate, hc, htr]

/-- Witness for amended C1: a response with no DisplayPosition key, and one
whose DisplayPosition value is an empty (falsy) mapping. -/
theorem retrive_coordinate_empty_extraction_fails_witness :
    nearbyRun (Json.obj [("Response", Json.str "ok")]) [[Json.obj []]] 20
      = Except.error PyErr.indexError ∧
    nearbyRun (Json.obj [("DisplayPosition", Json.obj [])]) [[Json.obj []]] 20
      = Except.error (PyErr.valueError "No coordinate found") :=
  ⟨(retrive_coordinate_empty_extraction_fails _ [[Json.obj []]] 20).1 rfl,
   (retrive_coordinate_empty_extraction_fails _ [[Json.obj []]] 20).2
     (Json.obj []) [] rfl rfl⟩

/-! ## Claims about malformed place candidates (C2) -/

/-- Counterexample for claim C2 as stated: a place candidate whose
`position` is wrong-shaped (a sequence of three numbers) makes the
accumulation step raise an uncaught ValueError, so the candidate is not
recorded with a placeholder and the run aborts instead of continuing. -/
theorem candidateStep_wrong_length_position_aborts :
    candidateStep initColl
        (Json.obj [("position", Json.arr [Json.num 1, Json.num 2, Json.num 3])])
      = Except.error (PyErr.valueError "too many values to unpack (expected 2)") ∧
    runTermGo 20 initColl 0
        [Json.obj [("position", Json.arr [Json.num 1, Json.num 2, Json.num 3])]]
      = Except.error (PyErr.valueError "too many values to unpack (expected 2)") := by
  decide

/-- Claim C2 as amended: a place candidate whose `position` is missing (or
otherwise not unpackable, raising TypeError) is caught locally, the
placeholder coordinate (0, 0) is substituted for (latitude, longitude), the
feature is still added, and the step succeeds so the run continues; a
`position` that unpacks to a wrong number of values instead raises an
uncaught ValueError (see the counterexample). -/
theorem candidateStep_type_error_placeholder (s : GeoJsonFeatureCollection)
    (kvs : List (String × Json)) :
    (kvs.lookup "position" = none →
      unpack2 (pyDictGet kvs "position") = Except.error PyErr.typeError) ∧
    (unpack2 (pyDictGet kvs "position") = Except.error PyErr.typeError →
      candidateStep s (Json.obj kvs) =
        Except.ok (add_features s (Json.num 0) (Json.num 0)
          (pyDictGet kvs "vicinity") (pyDictGet kvs "title"))) := by
  constructor
  · intro h
    simp [pyDictGet, h, unpack2]
  · intro h
    simp [candidateStep, h]

/-- Witness for amended C2: a candidate with no position field at all is
still added, with the (0, 0) placeholder. -/
theorem candidateStep_type_error_placeholder_witness :
    candidateStep initColl (Json.obj [("title", Json.str "B")]) =
      Except.ok (add_features initColl (Json.num 0) (Json.num 0)
        Json.null (Json.str "B")) := by
  have h := (candidateStep_type_error_placeholder initColl [("title", Json.str "B")]).2
    (by decide)
  simpa [pyDictGet] using h

/-! ## Claims about serialization naming (C8) -/

/-- Counterexample for claim C8 as stated: invoked without an explicit
destination name, `dump` writes geofile.geojson, not pymi.geojson. -/
theorem dump_default_name_not_pymi :
    dump_output_name dump_default_filename ≠ "pymi.geojson" := by
  decide

/-- Claim C8 as amended: invoked without an explicit destination name the
serializer writes geofile.geojson; the orchestrator passes the explicit
name pymi, so every successful run writes pymi.geojson. -/
theorem dump_default_name_geofile :
    dump_output_name dump_default_filename = "geofile.geojson" ∧
    dump_output_name "pymi" = "pymi.geojson" ∧
    (∀ resp termsItems size g fn,
      nearbyRun resp termsItems size = Except.ok (g, fn) → fn = "pymi.geojson") := by
  refine ⟨rfl, rfl, ?_⟩
  intro resp termsItems size g fn h
  unfold nearbyRun at h
  cases hr : retrive_coordinate resp with
  | error e => rw [hr] at h; simp at h
  | ok c =>
    rw [hr] at h
    cases ha : runAll size initColl termsItems with
    | error e => rw [ha] at h; simp at h
    | ok g2 =>
      rw [ha] at h
      simp only [Except.ok.injEq, Prod.mk.injEq] at h
      exact h.2.symm

/-- Witness for amended C8 at a concrete successful run. -/
theorem dump_default_name_geofile_witness : ("pymi.geojson" : String) = "pymi.geojson" :=
  dump_default_name_geofile.2.2
    (Json.obj [("DisplayPosition",
       Json.obj [("Latitude", Json.num 1), ("Longitude", Json.num 2)])])
    [] 20 initColl "pymi.geojson" (by decide)

/-! ## Claims about the per-term cap (C7) -/

theorem candidateStep_count (s : GeoJsonFeatureCollection) (p : Json) (b : Bool)
    (s2 : GeoJsonFeatureCollection) (h : candidateStep s p = Except.ok (b, s2)) :
    s2.count_feature = s.count_feature + (if b then 1 else 0) ∧
    s2.features.length = s.features.length + (if b then 1 else 0) := by
  cases p with
  | obj kvs =>
    rw [candidateStep] at h
    cases hu : unpack2 (pyDictGet kvs "position") with
    | ok pair =>
      obtain ⟨plat, plon⟩ := pair
      rw [hu] at h
      simp only [Except.ok.injEq] at h
      have hstep := add_count_step s plon plat
        (pyDictGet kvs "vicinity") (pyDictGet kvs "title")
      rw [h] at hstep
      exact ⟨hstep.1, hstep.2.1⟩
    | error e =>
      rw [hu] at h
      cases e with
      | typeError =>
        simp only [Except.ok.injEq] at h
        have hstep := add_count_step s (Json.num 0) (Json.num 0)
          (pyDictGet kvs "vicinity") (pyDictGet kvs "title")
        rw [h] at hstep
        exact ⟨hstep.1, hstep.2.1⟩
      | indexError => simp at h
      | attributeError => simp at h
      | valueError msg => simp at h
  | null => simp [candidateStep] at h
  | bool b2 => simp [candidateStep] at h
  | num n => simp [candidateStep] at h
  | str s2 => simp [candidateStep] at h
  | arr xs => simp [candidateStep] at h

theorem runTermGo_le : ∀ (size : Nat) (cands : List Json)
    (s : GeoJsonFeatureCollection) (cmp : Nat) (s2 : GeoJsonFeatureCollection),
    cmp ≤ size + 1 → runTermGo size s cmp cands = Except.ok s2 →
    s2.count_feature + cmp ≤ s.count_feature + size + 1 ∧
    s2.features.length + cmp ≤ s.features.length + size + 1
  | size, [], s, cmp, s2, hcmp, h => by
      simp only [runTermGo, Except.ok.injEq] at h
      rw [← h]
      omega
  | size, p :: rest, s, cmp, s2, hcmp, h => by
      rw [runTermGo] at h
      by_cases hsz : size < cmp
      · rw [if_pos hsz] at h
        simp only [Except.ok.injEq] at h
        rw [← h]
        omega
      · rw [if_neg hsz] at h
        cases hc : candidateStep s p with
        | error e => rw [hc] at h; simp at h
        | ok pair =>
          obtain ⟨added, s3⟩ := pair
          rw [hc] at h
          simp only [] at h
          have hstep := candidateStep_count s p added s3 hc
          cases added with
          | true =>
            have hrec := runTermGo_le size rest s3 (cmp + 1) s2 (by omega) h
            simp at hstep
            omega
          | false =>
            have hrec := runTermGo_le size rest s3 cmp s2 hcmp h
            simp at hstep
            omega

/-- Claim C7: in the per-term loop the cap check (accepted count greater
than `size`) happens before the count is incremented, so a term can accept
at most size + 1 features before the loop breaks, and only accepted
(non-duplicate) additions advance the per-term count. -/
theorem runTermGo_cap_size_plus_one (size : Nat) (s : GeoJsonFeatureCollection)
    (cands : List Json) (s2 : GeoJsonFeatureCollection) :
    (runTermGo size s 0 cands = Except.ok s2 →
      s2.count_feature ≤ s.count_feature + (size + 1) ∧
      s2.features.length ≤ s.features.length + (size + 1)) ∧
    (∀ p b s3, candidateStep s p = Except.ok (b, s3) →
      s3.count_feature = s.count_feature + (if b then 1 else 0)) := by
  constructor
  · intro h
    have hb := runTermGo_le size cands s 0 s2 (by omega) h
    omega
  · intro p b s3 h
    exact (candidateStep_count s p b s3 h).1

/-- Witness for C7: a one-candidate term under size 0 accepts one feature,
within the bound 0 + 1. -/
theorem runTermGo_cap_size_plus_one_witness :
    ({ features := [mkFeature (Json.num 0) (Json.num 0) Json.null (Json.str "A")],
       count_feature := 1 } : GeoJsonFeatureCollection).count_feature ≤
      initColl.count_feature + (0 + 1) :=
  ((runTermGo_cap_size_plus_one 0 initColl [Json.obj [("title", Json.str "A")]]
      { features := [mkFeature (Json.num 0) (Json.num 0) Json.null (Json.str "A")],
        count_feature := 1 }).1 (by decide)).1

/-! ## Extractor helper lemmas and the pruning function (C3, C9) -/

theorem extract_if_container (v : Json) (key : String) (E : List String) :
    (if isContainer v then extract_data v key E else []) = extract_data v key E := by
  cases v <;> simp [isContainer, extract_data]

mutual

theorem extract_erase : ∀ (obj : Json) (key : String) (E : List String),
    extract_data obj key E = extract_data obj key (E.filter (fun e => e != key))
  | Json.null, _, _ => rfl
  | Json.bool _, _, _ => rfl
  | Json.num _, _, _ => rfl
  | Json.str _, _, _ => rfl
  | Json.obj kvs, key, E => extractObj_erase kvs key E
  | Json.arr xs, key, E => extractArr_erase xs key E

theorem extractObj_erase : ∀ (kvs : List (String × Json)) (key : String) (E : List String),
    extractObj kvs key E = extractObj kvs key (E.filter (fun e => e != key))
  | [], _, _ => rfl
  | (k, v) :: rest, key, E => by
      simp only [extractObj]
      rw [← extractObj_erase rest key E]
      congr 1
      by_cases hk : k = key
      · simp [hk]
      · simp only [if_neg hk]
        by_cases hE : k ∈ E
        · have hmem : k ∈ E.filter (fun e => e != key) := by
            simp [List.mem_filter, hE, hk]
          simp [hE, hmem]
        · have hmem : k ∉ E.filter (fun e => e != key) := by
            intro hc
            exact hE (List.mem_filter.mp hc).1
          rw [if_neg hE, if_neg hmem]
          by_cases hcont : isContainer v
          · rw [if_pos hcont, if_pos hcont]
            exact extract_erase v key E
          · rw [if_neg hcont, if_neg hcont]

theorem extractArr_erase : ∀ (xs : List Json) (key : String) (E : List String),
    extractArr xs key E = extractArr xs key (E.filter (fun e => e != key))
  | [], _, _ => rfl
  | x :: rest, key, E => by
      simp only [extractArr]
      rw [← extract_erase x key E, ← extractArr_erase rest key E]

end

mutual

/-- Removal of the subtrees the exclusion list prunes: entries whose key
equals the target key are kept whole (the extractor yields them without
recursing), entries whose key is in the exclusion list are dropped, and
all other branches are traversed unchanged. -/
def pruneExcept (key : String) (E : List String) : Json → Json
  | Json.obj kvs => Json.obj (pruneObj key E kvs)
  | Json.arr xs => Json.arr (pruneArr key E xs)
  | j => j

def pruneObj (key : String) (E : List String) : List (String × Json) → List (String × Json)
  | [] => []
  | (k, v) :: rest =>
    if k = key then (k, v) :: pruneObj key E rest
    else if k ∈ E then pruneObj key E rest
    else (k, pruneExcept key E v) :: pruneObj key E rest

def pruneArr (key : String) (E : List String) : List Json → List Json
  | [] => []
  | x :: rest => pruneExcept key E x :: pruneArr key E rest

end

mutual

theorem extract_prune : ∀ (obj : Json) (key : String) (E : List String),
    extract_data obj key E = extract_data (pruneExcept key E obj) key []
  | Json.null, _, _ => rfl
  | Json.bool _, _, _ => rfl
  | Json.num _, _, _ => rfl
  | Json.str _, _, _ => rfl
  | Json.obj kvs, key, E => by
      simp only [pruneExcept, extract_data]
      exact extractObj_prune kvs key E
  | Json.arr xs, key, E => by
      simp only [pruneExcept, extract_data]
      exact extractArr_prune xs key E

theorem extractObj_prune : ∀ (kvs : List (String × Json)) (key : String) (E : List String),
    extractObj kvs key E = extractObj (pruneObj key E kvs) key []
  | [], _, _ => rfl
  | (k, v) :: rest, key, E => by
      by_cases hk : k = key
      · simp only [extractObj, pruneObj, if_pos hk]
        rw [← extractObj_prune rest key E]
      · by_cases hE : k ∈ E
        · simp only [extractObj, pruneObj, if_neg hk, if_pos hE]
          rw [← extractObj_prune rest key E]
          simp
        · simp only [extractObj, pruneObj, if_neg hk, if_neg hE]
          rw [if_neg (List.not_mem_nil k)]
          rw [extract_if_container, extract_if_container]
          rw [← extract_prune v key E, ← extractObj_prune rest key E]

theorem extractArr_prune : ∀ (xs : List Json) (key : String) (E : List String),
    extractArr xs key E = extractArr (pruneArr key E xs) key []
  | [], _, _ => rfl
  | x :: rest, key, E => by
      simp only [extractArr, pruneArr]
      rw [← extract_prune x key E, ← extractArr_prune rest key E]

end

/-- Claim C3: in the extractor the match check (k equals the target key)
is evaluated strictly before the exclusion check: an entry whose key
equals the target key is yielded and not recursed into even when that key
is also in the exclusion list; an entry whose key is in the exclusion list
but differs from the target key is skipped entirely; and removing the
target key from the exclusion list never changes the output, so exclusion
of the target key itself is moot. -/
theorem extract_match_before_exclude (key : String) (E : List String)
    (v : Json) (rest : List (String × Json)) (_hE : key ∈ E) :
    (extract_data (Json.obj ((key, v) :: rest)) key E
        = v :: extract_data (Json.obj rest) key E) ∧
    (∀ k2, k2 ≠ key → k2 ∈ E → ∀ v2,
      extract_data (Json.obj ((k2, v2) :: rest)) key E
        = extract_data (Json.obj rest) key E) ∧
    (∀ obj, extract_data obj key E
        = extract_data obj key (E.filter (fun e => e != key))) := by
  refine ⟨?_, ?_, ?_⟩
  · simp [extract_data, extractObj]
  · intro k2 hk2 hk2E v2
    simp [extract_data, extractObj, hk2, hk2E]
  · intro obj
    exact extract_erase obj key E

/-- Witness for C3: key "a" both matched and excluded is still yielded whole
and not recursed into; an excluded non-matching sibling is skipped. -/
theorem extract_match_before_exclude_witness :
    extract_data (Json.obj [("a", Json.obj [("a", Json.num 7)])]) "a" ["a", "b"]
      = [Json.obj [("a", Json.num 7)]] ∧
    extract_data (Json.obj [("b", Json.obj [("a", Json.num 7)])]) "a" ["a", "b"]
      = extract_data (Json.obj []) "a" ["a", "b"] := by
  have h := extract_match_before_exclude "a" ["a", "b"]
    (Json.obj [("a", Json.num 7)]) [] (by decide)
  refine ⟨?_, ?_⟩
  · rw [h.1]
    rfl
  · exact h.2.1 "b" (by decide) (by decide) (Json.obj [("a", Json.num 7)])

/-- Claim C9: for every tree, target key K and exclusion set E with K not
in E, running the extractor with exclusion set E yields exactly what the
no-exclusion extractor yields on the tree from which the subtrees of
entries keyed in E have been removed: exclusion removes exactly the values
under those subtrees and has no effect on any other branch. -/
theorem extract_exclude_prunes_subtrees (T : Json) (K : String) (E : List String)
    (_hKE : K ∉ E) :
    extract_data T K E = extract_data (pruneExcept K E T) K [] :=
  extract_prune T K E

/-- Witness for C9 at a concrete tree with an excluded sibling subtree. -/
theorem extract_exclude_prunes_subtrees_witness :
    extract_data (Json.obj [("e", Json.obj [("k", Json.num 1)]),
                            ("b", Json.obj [("k", Json.num 2)])]) "k" ["e"]
      = extract_data (pruneExcept "k" ["e"]
          (Json.obj [("e", Json.obj [("k", Json.num 1)]),
                     ("b", Json.obj [("k", Json.num 2)])])) "k" [] :=
  extract_exclude_prunes_subtrees
    (Json.obj [("e", Json.obj [("k", Json.num 1)]),
               ("b", Json.obj [("k", Json.num 2)])]) "k" ["e"] (by decide)

/-! ## Occurrence sites of the extractor traversal (C4) -/

/-- One step of an access path into a JSON tree: a mapping field or a
sequence index. -/
inductive PathStep where
  | fld (k : String) : PathStep
  | idx (n : Nat) : PathStep
deriving DecidableEq

mutual

/-- The occurrence sites of the target key under the documented traversal
with no exclusions: each site pairs the access path of a matched entry
with the value found there, listed in depth-first, mapping-then-sequence
order; matched values are not descended into. -/
def dfSites (key : String) : Json → List (List PathStep × Json)
  | Json.obj kvs => dfSitesObj key kvs
  | Json.arr xs => dfSitesArr key 0 xs
  | _ => []

def dfSitesObj (key : String) : List (String × Json) → List (List PathStep × Json)
  | [] => []
  | (k, v) :: rest =>
    (if k = key then [([PathStep.fld k], v)]
     else (dfSites key v).map (fun pv => (PathStep.fld k :: pv.1, pv.2)))
    ++ dfSitesObj key rest

def dfSitesArr (key : String) : Nat → List Json → List (List PathStep × Json)
  | _, [] => []
  | i, x :: rest =>
    (dfSites key x).map (fun pv => (PathStep.idx i :: pv.1, pv.2))
    ++ dfSitesArr key (i + 1) rest

end

/-- No string occurs twice in the list (well-formed mapping keys: Python
dicts cannot hold duplicate keys). -/
def nodupKeys : List String → Bool
  | [] => true
  | k :: rest => if k ∈ rest then false else nodupKeys rest

mutual

/-- Well-formedness of a JSON tree as produced by a Python JSON parser:
every mapping in the tree has pairwise distinct keys. -/
def wfJson : Json → Bool
  | Json.obj kvs => nodupKeys (kvs.map Prod.fst) && wfObj kvs
  | Json.arr xs => wfArr xs
  | _ => true

def wfObj : List (String × Json) → Bool
  | [] => true
  | (_, v) :: rest => wfJson v && wfObj rest

def wfArr : List Json → Bool
  | [] => true
  | x :: rest => wfJson x && wfArr rest

end

/-- Two paths, neither of which is a prefix of the other: the sites they
lead to are distinct and neither lies inside the subtree of the other. -/
def pathsNP (p q : List PathStep) : Prop := ¬ (p <+: q) ∧ ¬ (q <+: p)

mutual

theorem extract_eq_dfSites : ∀ (obj : Json) (key : String),
    extract_data obj key [] = (dfSites key obj).map Prod.snd
  | Json.null, _ => rfl
  | Json.bool _, _ => rfl
  | Json.num _, _ => rfl
  | Json.str _, _ => rfl
  | Json.obj kvs, key => extractObj_eq_dfSites kvs key
  | Json.arr xs, key => extractArr_eq_dfSites xs key 0

theorem extractObj_eq_dfSites : ∀ (kvs : List (String × Json)) (key : String),
    extractObj kvs key [] = (dfSitesObj key kvs).map Prod.snd
  | [], _ => rfl
  | (k, v) :: rest, key => by
      simp only [extractObj, dfSitesObj, List.map_append]
      rw [← extractObj_eq_dfSites rest key]
      congr 1
      by_cases hk : k = key
      · simp [hk]
      · rw [if_neg hk, if_neg hk, if_neg (List.not_mem_nil k), extract_if_container,
           extract_eq_dfSites v key, List.map_map]
        simp [Function.comp]

theorem extractArr_eq_dfSites : ∀ (xs : List Json) (key : String) (i : Nat),
    extractArr xs key [] = (dfSitesArr key i xs).map Prod.snd
  | [], _, _ => rfl
  | x :: rest, key, i => by
      simp only [extractArr, dfSitesArr, List.map_append]
      rw [extract_eq_dfSites x key, List.map_map, extractArr_eq_dfSites rest key (i + 1)]
      simp [Function.comp]

end

theorem nodupKeys_cons {k : String} {ks : List String}
    (h : nodupKeys (k :: ks) = true) : k ∉ ks ∧ nodupKeys ks = true := by
  by_cases hm : k ∈ ks
  · simp only [nodupKeys, if_pos hm] at h
    exact absurd h (by simp)
  · simp only [nodupKeys, if_neg hm] at h
    exact ⟨hm, h⟩

theorem pathsNP_cons (st : PathStep) {p q : List PathStep} (h : pathsNP p q) :
    pathsNP (st :: p) (st :: q) :=
  ⟨fun hp => h.1 (List.cons_prefix_cons.mp hp).2,
   fun hq => h.2 (List.cons_prefix_cons.mp hq).2⟩

theorem pathsNP_ne_head {a b : PathStep} (hab : a ≠ b) (p q : List PathStep) :
    pathsNP (a :: p) (b :: q) :=
  ⟨fun hp => hab (List.cons_prefix_cons.mp hp).1,
   fun hq => hab ((List.cons_prefix_cons.mp hq).1).symm⟩

theorem dfSitesObj_head (key k : String) (v : Json) (pv : List PathStep × Json)
    (h : pv ∈ (if k = key then [([PathStep.fld k], v)]
        else (dfSites key v).map (fun qv => (PathStep.fld k :: qv.1, qv.2)))) :
    ∃ p2, pv.1 = PathStep.fld k :: p2 := by
  by_cases hk : k = key
  · rw [if_pos hk] at h
    simp only [List.mem_singleton] at h
    exact ⟨[], by simp [h]⟩
  · rw [if_neg hk] at h
    simp only [List.mem_map] at h
    obtain ⟨qv, _, heq⟩ := h
    exact ⟨qv.1, by rw [← heq]⟩

theorem dfSitesObj_shape (key : String) : ∀ (kvs : List (String × Json))
    (pv : List PathStep × Json), pv ∈ dfSitesObj key kvs →
    ∃ k p2, pv.1 = PathStep.fld k :: p2 ∧ k ∈ kvs.map Prod.fst
  | [], pv, h => absurd h (List.not_mem_nil pv)
  | (k, v) :: rest, pv, h => by
      simp only [dfSitesObj, List.mem_append] at h
      cases h with
      | inl h1 =>
        obtain ⟨p2, hp2⟩ := dfSitesObj_head key k v pv h1
        exact ⟨k, p2, hp2, by simp⟩
      | inr h2 =>
        obtain ⟨k2, p2, hshape, hmem⟩ := dfSitesObj_shape key rest pv h2
        exact ⟨k2, p2, hshape, by simp [hmem]⟩

theorem dfSitesArr_shape (key : String) : ∀ (xs : List Json) (i : Nat)
    (pv : List PathStep × Json), pv ∈ dfSitesArr key i xs →
    ∃ j p2, pv.1 = PathStep.idx j :: p2 ∧ i ≤ j
  | [], _, pv, h => absurd h (List.not_mem_nil pv)
  | x :: rest, i, pv, h => by
      simp only [dfSitesArr, List.mem_append] at h
      cases h with
      | inl h1 =>
        simp only [List.mem_map] at h1
        obtain ⟨qv, _, heq⟩ := h1
        exact ⟨i, qv.1, by rw [← heq], Nat.le_refl i⟩
      | inr h2 =>
        obtain ⟨j, p2, hshape, hj⟩ := dfSitesArr_shape key rest (i + 1) pv h2
        exact ⟨j, p2, hshape, by omega⟩

mutual

theorem dfSites_pfree : ∀ (obj : Json) (key : String), wfJson obj = true →
    ((dfSites key obj).map Prod.fst).Pairwise pathsNP
  | Json.null, _, _ => List.Pairwise.nil
  | Json.bool _, _, _ => List.Pairwise.nil
  | Json.num _, _, _ => List.Pairwise.nil
  | Json.str _, _, _ => List.Pairwise.nil
  | Json.obj kvs, key, h => by
      simp only [wfJson, Bool.and_eq_true] at h
      exact dfSitesObj_pfree kvs key h.1 h.2
  | Json.arr xs, key, h => by
      simp only [wfJson] at h
      exact dfSitesArr_pfree xs key 0 h

theorem dfSitesObj_pfree : ∀ (kvs : List (String × Json)) (key : String),
    nodupKeys (kvs.map Prod.fst) = true → wfObj kvs = true →
    ((dfSitesObj key kvs).map Prod.fst).Pairwise pathsNP
  | [], _, _, _ => List.Pairwise.nil
  | (k, v) :: rest, key, hnd, hwf => by
      have hnd2 := nodupKeys_cons (by simpa using hnd)
      simp only [wfObj, Bool.and_eq_true] at hwf
      simp only [dfSitesObj, List.map_append]
      rw [List.pairwise_append]
      refine ⟨?_, dfSitesObj_pfree rest key hnd2.2 hwf.2, ?_⟩
      · by_cases hk : k = key
        · rw [if_pos hk]
          simp
        · rw [if_neg hk, List.map_map]
          refine List.pairwise_map.mpr ?_
          have hin := List.pairwise_map.mp (dfSites_pfree v key hwf.1)
          exact hin.imp (fun hab => pathsNP_cons (PathStep.fld k) hab)
      · intro p hp q hq
        simp only [List.mem_map] at hp hq
        obtain ⟨pv, hpv, hpeq⟩ := hp
        obtain ⟨qv, hqv, hqeq⟩ := hq
        obtain ⟨p2, hp2⟩ := dfSitesObj_head key k v pv hpv
        obtain ⟨k2, q2, hq2, hk2⟩ := dfSitesObj_shape key rest qv hqv
        rw [← hpeq, ← hqeq, hp2, hq2]
        apply pathsNP_ne_head
        intro hfld
        have hkk : k = k2 := PathStep.fld.inj hfld
        exact hnd2.1 (by rwa [hkk])

theorem dfSitesArr_pfree : ∀ (xs : List Json) (key : String) (i : Nat), wfArr xs = true →
    ((dfSitesArr key i xs).map Prod.fst).Pairwise pathsNP
  | [], _, _, _ => List.Pairwise.nil
  | x :: rest, key, i, hwf => by
      simp only [wfArr, Bool.and_eq_true] at hwf
      simp only [dfSitesArr, List.map_append]
      rw [List.pairwise_append]
      refine ⟨?_, dfSitesArr_pfree rest key (i + 1) hwf.2, ?_⟩
      · rw [List.map_map]
        refine List.pairwise_map.mpr ?_
        have hin := List.pairwise_map.mp (dfSites_pfree x key hwf.1)
        exact hin.imp (fun hab => pathsNP_cons (PathStep.idx i) hab)
      · intro p hp q hq
        simp only [List.map_map, List.mem_map, Function.comp] at hp
        simp only [List.mem_map] at hq
        obtain ⟨pv, hpv, hpeq⟩ := hp
        obtain ⟨qv, hqv, hqeq⟩ := hq
        obtain ⟨j, q2, hq2, hj⟩ := dfSitesArr_shape key rest (i + 1) qv hqv
        rw [← hpeq, ← hqeq, hq2]
        apply pathsNP_ne_head
        intro hidx
        have hij : i = j := PathStep.idx.inj hidx
        omega

end

/-- Claim C4: with no exclusions the extractor output is exactly the list
of values of the occurrence sites of the target key, one element per site,
in the depth-first, mapping-then-sequence traversal order (`dfSites`); on
well-formed trees the site paths are pairwise non-nested, so no yielded
occurrence lies under the subtree of an already matched key (values under
a matched subtree are never separately yielded) and every site appears
exactly once; in particular, on the scenario tree the output is the
matched mapping followed by 5, in that order. -/
theorem extract_depth_first_once (key : String) :
    (∀ obj, extract_data obj key [] = (dfSites key obj).map Prod.snd) ∧
    (∀ obj, wfJson obj = true →
      ((dfSites key obj).map Prod.fst).Pairwise pathsNP) ∧
    extract_data (Json.obj [("a", Json.obj [("DisplayPosition",
        Json.obj [("Latitude", Json.num 1), ("Longitude", Json.num 2)])]),
      ("b", Json.arr [Json.obj [("DisplayPosition", Json.num 5)]])])
      "DisplayPosition" []
      = [Json.obj [("Latitude", Json.num 1), ("Longitude", Json.num 2)], Json.num 5] := by
  refine ⟨?_, ?_, by decide⟩
  · intro obj
    exact extract_eq_dfSites obj key
  · intro obj hwf
    exact dfSites_pfree obj key hwf

/-- Witness for C4 at the scenario tree, which is well formed. -/
theorem extract_depth_first_once_witness :
    extract_data (Json.obj [("a", Json.obj [("DisplayPosition",
        Json.obj [("Latitude", Json.num 1), ("Longitude", Json.num 2)])]),
      ("b", Json.arr [Json.obj [("DisplayPosition", Json.num 5)]])])
      "DisplayPosition" []
      = (dfSites "DisplayPosition" (Json.obj [("a", Json.obj [("DisplayPosition",
          Json.obj [("Latitude", Json.num 1), ("Longitude", Json.num 2)])]),
        ("b", Json.arr [Json.obj [("DisplayPosition", Json.num 5)]])])).map Prod.snd ∧
    ((dfSites "DisplayPosition" (Json.obj [("a", Json.obj [("DisplayPosition",
        Json.obj [("Latitude", Json.num 1), ("Longitude", Json.num 2)])]),
      ("b", Json.arr [Json.obj [("DisplayPosition", Json.num 5)]])])).map
        Prod.fst).Pairwise pathsNP :=
  ⟨(extract_depth_first_once "DisplayPosition").1 _,
   (extract_depth_first_once "DisplayPosition").2.1 _ (by decide)⟩
